import Mathlib

/-!
# jetbot_camera: acquisition cycle and startup of the camera node

A shallow embedding of `src/jetbot_camera.cpp`.

* `aquireFrame` is the function of the same name (lines 44-84).  The two
  function-local statics `seq` and `frame_id` and the calls made on the three
  global collaborators (`camera`, `camera_cvt`, `camera_pub`) are made explicit:
  the statics are fields of `State`, the calls are recorded in `State.trace`,
  and what the collaborators answer in one cycle is a `CycleEnv`.
  The static `frame_id` is a `const char*`: the state keeps the address, and
  the text of a message's `frame_id` is what the memory of the cycle holds at
  that address when line 76 copies it.
* `parseFlags`, `resolveParams` and `main` are the three stages of `main`
  (lines 88-195): the flag loop, the four `private_nh.param` calls, and the
  set-up followed by the `while( ros::ok() )` loop.

`atoi` and `atof` are C library functions; every definition that needs them
takes them as arguments.  The frame rate is a `float` in the source; it is
carried here as a rational number, no arithmetic is ever done on it.
-/

namespace JetbotCamera

/-! ## Data model -/

/-- Pixel formats of jetson-utils; the source only ever names `IMAGE_RGBA32F`. -/
inductive imageFormat where
  | IMAGE_RGB8
  | IMAGE_RGBA8
  | IMAGE_RGB32F
  | IMAGE_RGBA32F
  deriving DecidableEq, Repr

/-- The `std_msgs/Header` of the published image. `seq` is a `uint32_t`. -/
structure Header where
  seq : Nat
  stamp : Nat
  frame_id : String
  deriving DecidableEq, Repr

/-- The `sensor_msgs::Image` handed to the publisher: the header stamped by
`aquireFrame` and whatever `Convert` wrote into the message. -/
structure Image where
  header : Header
  data : List Nat
  deriving DecidableEq, Repr

/-- What the collaborators answer during one call of `aquireFrame`:
whether `CaptureRGBA`, `Resize` and `Convert` return true, what `GetWidth`
and `GetHeight` report, the address `camera->GetResource().c_str()` would
return (`resourcePtr`), the C string found at each address when the header is
filled in (`mem`), the value of `ros::Time::now()` and the bytes `Convert`
produced. -/
structure CycleEnv where
  captureOk : Bool
  resizeOk : Bool
  convertOk : Bool
  width : Nat
  height : Nat
  resourcePtr : Nat
  mem : Nat → String
  now : Nat
  converted : List Nat

/-- The resource the camera reports in this cycle: the text at the address
`GetResource().c_str()` returns. -/
def CycleEnv.resource (env : CycleEnv) : String := env.mem env.resourcePtr

/-- Calls made by `aquireFrame` on its collaborators, with their outcome. -/
inductive Event where
  | capture (timeoutMs : Nat) (ok : Bool)
  | resize (width height : Nat) (format : imageFormat) (ok : Bool)
  | convert (ok : Bool)
  | publish (msg : Image)
  deriving DecidableEq, Repr

/-- The state that survives from one call of `aquireFrame` to the next:
the static `seq`, the static `frame_id` (`none` until its initialiser has
run) and the calls made so far. `frame_id` is a `const char*` into the
camera's resource string: the state holds the address, not the text. -/
structure State where
  seq : Nat
  frame_id : Option Nat
  trace : List Event
  deriving DecidableEq, Repr

/-- The state before the first call: `seq = 0`, `frame_id` not yet initialised. -/
def State.init : State := { seq := 0, frame_id := none, trace := [] }

/-- Append one call to the trace. -/
def State.log (s : State) (e : Event) : State := { s with trace := s.trace ++ [e] }

/-- The message of a `publish` call, nothing for the other calls. -/
def Event.published? : Event → Option Image
  | .publish msg => some msg
  | _ => none

/-- The messages handed to `camera_pub->publish`, oldest first. -/
def published (tr : List Event) : List Image := tr.filterMap Event.published?

/-- Whether the call is a `Convert`. -/
def Event.isConvert : Event → Bool
  | .convert _ => true
  | _ => false

/-- Whether the call is a `Resize`. -/
def Event.isResize : Event → Bool
  | .resize _ _ _ _ => true
  | _ => false

/-- All three fallible steps of the cycle succeed. -/
def CycleEnv.succeeds (env : CycleEnv) : Bool :=
  env.captureOk && env.resizeOk && env.convertOk

/-! ## `aquireFrame` -/

/-- One call of `aquireFrame` (lines 44-84): the returned flag and the new state. -/
def aquireFrame (env : CycleEnv) (s : State) : Bool × State :=
  let s1 := s.log (.capture 1000 env.captureOk)
  if !env.captureOk then (false, s1)
  else
    let s2 := s1.log (.resize env.width env.height .IMAGE_RGBA32F env.resizeOk)
    if !env.resizeOk then (false, s2)
    else
      let s3 := s2.log (.convert env.convertOk)
      if !env.convertOk then (false, s3)
      else
        -- `static const char* frame_id = camera->GetResource().c_str();`
        -- runs the first time control reaches it, and never again
        let frame_id := s.frame_id.getD env.resourcePtr
        -- `msg.header.frame_id = frame_id;` copies the bytes found at the address
        let msg : Image :=
          { header := { seq := s.seq, stamp := env.now, frame_id := env.mem frame_id },
            data := env.converted }
        (true, { seq := (s.seq + 1) % 2 ^ 32,
                 frame_id := some frame_id,
                 trace := s3.trace ++ [.publish msg] })

/-- The body of `while( ros::ok() )` run once per element of `cycles`:
one element for each time `ros::ok()` answered true. -/
def mainLoop (cycles : List CycleEnv) (s : State) : State :=
  cycles.foldl (fun st env => (aquireFrame env st).2) s

/-- Whether the call is a `CaptureRGBA`; every call of `aquireFrame` starts
with exactly one. -/
def Event.isCapture : Event → Bool
  | .capture _ _ => true
  | _ => false

/-- Number of calls of `aquireFrame` recorded in a trace. -/
def aquireCalls (tr : List Event) : Nat := tr.countP Event.isCapture

/-! ## `main`: flags, parameters, set-up -/

/-- The three locals the flag loop assigns: `int width, height; float framerate`. -/
structure Flags where
  width : Int
  height : Int
  framerate : ℚ
  deriving DecidableEq, Repr

/-- The initialisers of lines 95-96. -/
def Flags.default : Flags := { width := 640, height := 480, framerate := 30 }

/-- The body of the `for` loop of lines 98-111 at index `i`: three
independent `if`s, each guarded by `strcmp(..)==0 && i+1<argc`. -/
def flagStep (atoi : String → Int) (atof : String → ℚ) (argv : List String)
    (f : Flags) (i : Nat) : Flags :=
  let argc := argv.length
  let f1 := if argv[i]? = some "--width" ∧ i + 1 < argc
            then { f with width := atoi (argv.getD (i + 1) "") } else f
  let f2 := if argv[i]? = some "--height" ∧ i + 1 < argc
            then { f1 with height := atoi (argv.getD (i + 1) "") } else f1
  let f3 := if argv[i]? = some "--fps" ∧ i + 1 < argc
            then { f2 with framerate := atof (argv.getD (i + 1) "") } else f2
  f3

/-- The flag loop `for (int i=1; i<argc; i++)`, with `argc = argv.length`. -/
def parseFlags (atoi : String → Int) (atof : String → ℚ) (argv : List String) : Flags :=
  (List.range' 1 (argv.length - 1)).foldl (flagStep atoi atof argv) Flags.default

/-- The parameter source as `private_nh.param` sees it: for each key the
value found there, or `none` when the key is not set. -/
structure ParamSource where
  device : Option String
  width : Option Int
  height : Option Int
  framerate : Option ℚ
  deriving DecidableEq, Repr

/-- A parameter source with no key set. -/
def ParamSource.empty : ParamSource :=
  { device := none, width := none, height := none, framerate := none }

/-- The call `nh.param(name, var, fallback)`: the value found under the key,
the fallback when there is none. -/
def param {α : Type} (found : Option α) (fallback : α) : α :=
  match found with
  | some v => v
  | none => fallback

/-- The resolved startup values after lines 121-126. -/
structure Startup where
  device : String
  width : Int
  height : Int
  framerate : ℚ
  deriving DecidableEq, Repr

/-- Lines 121-126: `camera_device` starts as `"csi://0"`; each of the four
variables is passed to `param` as its own fallback. -/
def resolveParams (ps : ParamSource) (f : Flags) : Startup :=
  let camera_device := "csi://0"
  { device := param ps.device camera_device,
    width := param ps.width f.width,
    height := param ps.height f.height,
    framerate := param ps.framerate f.framerate }

/-- The values of `videoOptions::ioType`. -/
inductive IoType where
  | INPUT
  | OUTPUT
  deriving DecidableEq, Repr

/-- The values of `videoOptions::flipMethod`. -/
inductive FlipMethod where
  | FLIP_NONE
  | FLIP_COUNTERCLOCKWISE
  | FLIP_ROTATE_180
  | FLIP_CLOCKWISE
  | FLIP_HORIZONTAL
  | FLIP_UPPER_RIGHT_DIAGONAL
  | FLIP_VERTICAL
  | FLIP_UPPER_LEFT_DIAGONAL
  deriving DecidableEq, Repr

/-- The fields of `videoOptions` that `main` assigns (lines 136-141). The
record is declared in jetson-utils; each field carries here the type of the
variable assigned to it. -/
structure videoOptions where
  resource : String
  width : Int
  height : Int
  frameRate : ℚ
  ioType : IoType
  flipMethod : FlipMethod
  deriving DecidableEq, Repr

/-- Lines 134-141. -/
def makeOptions (st : Startup) : videoOptions :=
  { resource := st.device,
    width := st.width,
    height := st.height,
    frameRate := st.framerate,
    ioType := IoType.INPUT,
    flipMethod := FlipMethod.FLIP_ROTATE_180 }

/-- How the set-up calls of `main` turn out: `gstCamera::Create` returns a
camera, `new imageConverter()` returns a non-null pointer, `it.advertise`
creates a working publisher, `camera->Open()` returns true. -/
structure SetupEnv where
  createOk : Bool
  converterOk : Bool
  publisherOk : Bool
  openOk : Bool
  deriving DecidableEq, Repr

/-- One of the four set-up steps fails. -/
def SetupEnv.anyFailure (setup : SetupEnv) : Bool :=
  !setup.createOk || !setup.converterOk || !setup.publisherOk || !setup.openOk

/-- One of the three set-up steps whose result `main` tests fails. -/
def SetupEnv.testedFailure (setup : SetupEnv) : Bool :=
  !setup.createOk || !setup.converterOk || !setup.openOk

/-- What a run of `main` leaves behind: the exit code, the options given to
`gstCamera::Create`, and the state of the acquisition cycle when `main`
returns (its trace holds every call made by `aquireFrame`). -/
structure MainResult where
  exitCode : Int
  opt : videoOptions
  final : State
  deriving DecidableEq, Repr

/-- The function `main` (lines 88-195). `cycles` has one element for each
time `ros::ok()` answered true before it answered false. The value returned
by `it.advertise` is stored and never tested, so `setup.publisherOk` is not
consulted. -/
def main (atoi : String → Int) (atof : String → ℚ) (argv : List String)
    (ps : ParamSource) (setup : SetupEnv) (cycles : List CycleEnv) : MainResult :=
  let st := resolveParams ps (parseFlags atoi atof argv)
  let opt := makeOptions st
  if !setup.createOk then { exitCode := 0, opt := opt, final := State.init }
  else if !setup.converterOk then { exitCode := 0, opt := opt, final := State.init }
  else if !setup.openOk then { exitCode := 0, opt := opt, final := State.init }
  else { exitCode := 0, opt := opt, final := mainLoop cycles State.init }

/-- A decimal reading of a string in the manner of `atoi`: optional sign,
then the leading digits; used to evaluate the definitions on examples. -/
def atoiDigits (s : String) : Int :=
  let go (cs : List Char) : Nat :=
    (cs.takeWhile Char.isDigit).foldl (fun n c => 10 * n + (c.toNat - 48)) 0
  match s.toList with
  | '-' :: cs => - (go cs : Int)
  | '+' :: cs => (go cs : Int)
  | cs => (go cs : Int)

/-- A decimal reading of a string in the manner of `atof`, whole numbers only. -/
def atofDigits (s : String) : ℚ := (atoiDigits s : ℚ)


/-- The calls made by one call of `aquireFrame`: what it adds to the trace. -/
def cycleCalls (env : CycleEnv) (s : State) : List Event :=
  (aquireFrame env s).2.trace.drop s.trace.length

/-- The sequence numbers of the published messages of a trace. -/
def seqs (tr : List Event) : List Nat := (published tr).map (fun m => m.header.seq)

/-- A cycle in which everything succeeds on a 640x480 frame; the camera keeps
its resource string `csi://0` at address 100. -/
def okEnv : CycleEnv :=
  { captureOk := true, resizeOk := true, convertOk := true, width := 640, height := 480,
    resourcePtr := 100, mem := fun p => if p = 100 then "csi://0" else "",
    now := 7, converted := [1, 2, 3] }

/-- A cycle in which `CaptureRGBA` times out. -/
def timeoutEnv : CycleEnv := { okEnv with captureOk := false }

/-- A cycle in which `Resize` fails. -/
def resizeFailEnv : CycleEnv := { okEnv with resizeOk := false }

/-- A set-up in which every step succeeds on `csi://0`. -/
def setupOk : SetupEnv :=
  { createOk := true, converterOk := true, publisherOk := true, openOk := true }

/-- A set-up in which only the creation of the publisher fails. -/
def setupNoPublisher : SetupEnv := { setupOk with publisherOk := false }

/-- A set-up in which `camera->Open()` fails. -/
def setupNoStream : SetupEnv := { setupOk with openOk := false }

/-- No occurrence of the flag `name` at an index the flag loop acts on:
an index `i` with `1 <= i` and `i + 1 < argc`. -/
def noFlag (argv : List String) (name : String) : Prop :=
  ∀ i, 1 ≤ i → i + 1 < argv.length → argv[i]? ≠ some name

/-! ## Basic facts about one cycle -/

theorem published_append (a b : List Event) :
    published (a ++ b) = published a ++ published b := by
  simp [published, List.filterMap_append]

theorem aquireFrame_fail (env : CycleEnv) (s : State) (h : env.succeeds = false) :
    (aquireFrame env s).1 = false ∧ (aquireFrame env s).2.seq = s.seq ∧
      (aquireFrame env s).2.frame_id = s.frame_id ∧
      published (aquireFrame env s).2.trace = published s.trace := by
  obtain ⟨c, r, v, w, ht, res, mem, now, conv⟩ := env
  cases c <;> cases r <;> cases v <;>
    simp_all [CycleEnv.succeeds, aquireFrame, State.log, published, List.filterMap_append,
      Event.published?]

theorem aquireFrame_success (env : CycleEnv) (s : State) (h : env.succeeds = true) :
    aquireFrame env s =
      (true,
        { seq := (s.seq + 1) % 2 ^ 32,
          frame_id := some (s.frame_id.getD env.resourcePtr),
          trace := s.trace ++
            [Event.capture 1000 true,
             Event.resize env.width env.height imageFormat.IMAGE_RGBA32F true,
             Event.convert true,
             Event.publish
               { header := { seq := s.seq, stamp := env.now,
                             frame_id := env.mem (s.frame_id.getD env.resourcePtr) },
                 data := env.converted }] }) := by
  obtain ⟨c, r, v, w, ht, res, mem, now, conv⟩ := env
  cases c <;> cases r <;> cases v <;>
    simp_all [CycleEnv.succeeds, aquireFrame, State.log]

theorem mainLoop_nil (s : State) : mainLoop [] s = s := rfl

theorem mainLoop_cons (env : CycleEnv) (cycles : List CycleEnv) (s : State) :
    mainLoop (env :: cycles) s = mainLoop cycles (aquireFrame env s).2 := rfl

theorem mainLoop_append (xs ys : List CycleEnv) (s : State) :
    mainLoop (xs ++ ys) s = mainLoop ys (mainLoop xs s) := by
  simp [mainLoop, List.foldl_append]


/-! ## The sequence counter along a run -/

theorem mainLoop_seqs (cycles : List CycleEnv) (s : State) (hs : s.seq < 2 ^ 32) :
    seqs (mainLoop cycles s).trace =
        seqs s.trace ++
          (List.range (cycles.countP CycleEnv.succeeds)).map (fun k => (s.seq + k) % 2 ^ 32) ∧
      (mainLoop cycles s).seq = (s.seq + cycles.countP CycleEnv.succeeds) % 2 ^ 32 := by
  induction cycles generalizing s with
  | nil =>
    simp [mainLoop_nil]
    omega
  | cons env rest ih =>
    rw [mainLoop_cons]
    cases hok : env.succeeds with
    | false =>
      obtain ⟨_, hseq, _, hpub⟩ := aquireFrame_fail env s hok
      have := ih (aquireFrame env s).2 (by rw [hseq]; exact hs)
      rw [hseq] at this
      simpa [seqs, hpub, List.countP_cons, hok] using this
    | true =>
      rw [aquireFrame_success env s hok]
      have hlt : (s.seq + 1) % 2 ^ 32 < 2 ^ 32 := Nat.mod_lt _ (by norm_num)
      have := ih
        { seq := (s.seq + 1) % 2 ^ 32,
          frame_id := some (s.frame_id.getD env.resourcePtr),
          trace := s.trace ++
            [Event.capture 1000 true,
             Event.resize env.width env.height imageFormat.IMAGE_RGBA32F true,
             Event.convert true,
             Event.publish
               { header := { seq := s.seq, stamp := env.now,
                             frame_id := env.mem (s.frame_id.getD env.resourcePtr) },
                 data := env.converted }] } hlt
      obtain ⟨h1, h2⟩ := this
      have hstep : ∀ k, ((s.seq + 1) % 2 ^ 32 + k) % 2 ^ 32 = (s.seq + (k + 1)) % 2 ^ 32 := by
        intro k
        rw [Nat.add_mod, Nat.mod_mod, ← Nat.add_mod]
        congr 1
        omega
      refine ⟨?_, ?_⟩
      · rw [h1]
        simp only [List.countP_cons, hok, if_true, List.range_succ_eq_map, List.map_cons,
          List.map_map, seqs, published_append, List.map_append]
        simp [published, Event.published?, Function.comp_def]
        refine ⟨by omega, fun a _ => ?_⟩
        congr 1
        omega
      · rw [h2, hstep]
        simp [List.countP_cons, hok]

theorem mainLoop_published_length (cycles : List CycleEnv) (s : State) :
    (published (mainLoop cycles s).trace).length =
      (published s.trace).length + cycles.countP CycleEnv.succeeds := by
  induction cycles generalizing s with
  | nil => simp [mainLoop_nil]
  | cons env rest ih =>
    rw [mainLoop_cons, ih]
    cases hok : env.succeeds with
    | false =>
      obtain ⟨_, _, _, hpub⟩ := aquireFrame_fail env s hok
      simp [hpub, List.countP_cons, hok]
    | true =>
      rw [aquireFrame_success env s hok]
      simp [published_append, published, Event.published?, List.countP_cons, hok]
      omega


theorem aquireFrame_trace (env : CycleEnv) (s : State) :
    (aquireFrame env s).2.trace = s.trace ++ cycleCalls env s := by
  obtain ⟨c, r, v, w, ht, res, mem, now, conv⟩ := env
  cases c <;> cases r <;> cases v <;>
    simp [cycleCalls, aquireFrame, State.log]

theorem mainLoop_all_fail (fails : List CycleEnv) (s : State)
    (h : ∀ e ∈ fails, e.succeeds = false) :
    (mainLoop fails s).seq = s.seq ∧ (mainLoop fails s).frame_id = s.frame_id ∧
      published (mainLoop fails s).trace = published s.trace := by
  induction fails generalizing s with
  | nil => simp [mainLoop_nil]
  | cons e rest ih =>
    rw [mainLoop_cons]
    obtain ⟨_, h1, h2, h3⟩ := aquireFrame_fail e s (h e (List.mem_cons_self _ _))
    obtain ⟨k1, k2, k3⟩ := ih (aquireFrame e s).2 (fun x hx => h x (List.mem_cons_of_mem _ hx))
    exact ⟨k1.trans h1, k2.trans h2, k3.trans h3⟩

theorem aquireFrame_wraps (env : CycleEnv) (s : State) (h : env.succeeds = true)
    (hs : s.seq = 2 ^ 32 - 1) : (aquireFrame env s).2.seq = 0 := by
  rw [aquireFrame_success env s h, hs]
  norm_num

/-! ## The acquisition cycle: claims -/

/-- C1: in a run of any finite list of cycles from the initial state, the k-th
published message (k from 0) has `header.seq = k mod 2^32`, and each published
sequence number is the previous published one plus one, modulo 2^32. -/
theorem C1_published_seq_is_index (cycles : List CycleEnv) :
    (∀ (k : Nat) (m : Image),
        (published (mainLoop cycles State.init).trace)[k]? = some m →
          m.header.seq = k % 2 ^ 32) ∧
    (∀ (k : Nat) (m n : Image),
        (published (mainLoop cycles State.init).trace)[k]? = some m →
        (published (mainLoop cycles State.init).trace)[k + 1]? = some n →
          n.header.seq = (m.header.seq + 1) % 2 ^ 32) := by
  have key : ∀ (k : Nat) (m : Image),
      (published (mainLoop cycles State.init).trace)[k]? = some m →
        m.header.seq = k % 2 ^ 32 := by
    intro k m hk
    have h := (mainLoop_seqs cycles State.init (by simp [State.init])).1
    have hk2 : (seqs (mainLoop cycles State.init).trace)[k]? = some m.header.seq := by
      simp [seqs, List.getElem?_map, hk]
    rw [h] at hk2
    simp only [State.init, seqs, published, List.filterMap_nil, List.map_nil, List.nil_append,
      Nat.zero_add, List.getElem?_map] at hk2
    cases hr : (List.range (List.countP CycleEnv.succeeds cycles))[k]? with
    | none => simp [hr] at hk2
    | some j =>
      have hj : j = k := by
        have := List.getElem?_eq_some_iff.mp hr
        obtain ⟨hlt, he⟩ := this
        simpa using he.symm
      simp [hr, hj] at hk2
      omega
  refine ⟨key, ?_⟩
  intro k m n hm hn
  rw [key k m hm, key (k + 1) n hn]
  simp [Nat.add_mod]

/-- Witness of C1: success, timeout, success publishes two messages, the
second one with sequence number 1. -/
theorem C1_published_seq_is_index_witness :
    (published (mainLoop [okEnv, timeoutEnv, okEnv] State.init).trace)[1]? =
        some { header := { seq := 1, stamp := 7, frame_id := "csi://0" }, data := [1, 2, 3] } ∧
      (1 : Nat) = 1 % 2 ^ 32 :=
  ⟨by decide,
   (C1_published_seq_is_index [okEnv, timeoutEnv, okEnv]).1 1
     { header := { seq := 1, stamp := 7, frame_id := "csi://0" }, data := [1, 2, 3] }
     (by decide)⟩


/-- C2: a cycle in which capture, resize or convert fails leaves the sequence
counter and the published messages unchanged; so after any number of failed
cycles the next published message has the sequence number of the last
published one plus one (modulo 2^32); and the outcomes success, success,
success, timeout, success publish exactly four messages, numbered 0, 1, 2, 3,
none of them in the timeout cycle. -/
theorem C2_failed_cycles_keep_seq :
    (∀ (env : CycleEnv) (s : State), env.succeeds = false →
        (aquireFrame env s).2.seq = s.seq ∧
          published (aquireFrame env s).2.trace = published s.trace) ∧
    (∀ (before fails : List CycleEnv) (e1 e2 : CycleEnv),
        e1.succeeds = true → (∀ e ∈ fails, e.succeeds = false) → e2.succeeds = true →
        ∃ m1 m2 : Image,
          (published (mainLoop (before ++ [e1]) State.init).trace).getLast? = some m1 ∧
          published (mainLoop (before ++ [e1] ++ fails ++ [e2]) State.init).trace =
            published (mainLoop (before ++ [e1]) State.init).trace ++ [m2] ∧
          m2.header.seq = (m1.header.seq + 1) % 2 ^ 32) ∧
    (∀ e0 e1 e2 t e3 : CycleEnv,
        e0.succeeds = true → e1.succeeds = true → e2.succeeds = true →
        t.captureOk = false → e3.succeeds = true →
        seqs (mainLoop [e0, e1, e2, t, e3] State.init).trace = [0, 1, 2, 3] ∧
          published (mainLoop [e0, e1, e2, t] State.init).trace =
            published (mainLoop [e0, e1, e2] State.init).trace) := by
  refine ⟨?_, ?_, ?_⟩
  · intro env s h
    obtain ⟨_, h1, _, h2⟩ := aquireFrame_fail env s h
    exact ⟨h1, h2⟩
  · intro before fails e1 e2 h1 hf h2
    have hA : mainLoop (before ++ [e1]) State.init =
        (aquireFrame e1 (mainLoop before State.init)).2 := by
      rw [mainLoop_append]; rfl
    have hB : mainLoop (before ++ [e1] ++ fails ++ [e2]) State.init =
        (aquireFrame e2 (mainLoop fails (mainLoop (before ++ [e1]) State.init))).2 := by
      rw [mainLoop_append, mainLoop_append]; rfl
    obtain ⟨k1, _, k3⟩ := mainLoop_all_fail fails (mainLoop (before ++ [e1]) State.init) hf
    refine ⟨{ header := { seq := (mainLoop before State.init).seq, stamp := e1.now,
                          frame_id := e1.mem
                            ((mainLoop before State.init).frame_id.getD e1.resourcePtr) },
              data := e1.converted },
            { header := { seq := (mainLoop fails (mainLoop (before ++ [e1]) State.init)).seq,
                          stamp := e2.now,
                          frame_id := e2.mem ((mainLoop fails
                            (mainLoop (before ++ [e1]) State.init)).frame_id.getD
                              e2.resourcePtr) },
              data := e2.converted }, ?_, ?_, ?_⟩
    · rw [hA, aquireFrame_success e1 _ h1]
      simp [published_append, published, Event.published?]
    · rw [hB, aquireFrame_success e2 _ h2]
      simp only [published_append, k3]
      simp [published, Event.published?]
    · simp only [k1]
      rw [hA, aquireFrame_success e1 _ h1]
  · intro e0 e1 e2 t e3 h0 h1 h2 ht h3
    have hts : t.succeeds = false := by simp [CycleEnv.succeeds, ht]
    have hcount : List.countP CycleEnv.succeeds [e0, e1, e2, t, e3] = 4 := by
      simp [List.countP_cons, h0, h1, h2, hts, h3]
    refine ⟨?_, ?_⟩
    · have h := (mainLoop_seqs [e0, e1, e2, t, e3] State.init (by simp [State.init])).1
      rw [h, hcount]
      simp [seqs, published, State.init, List.range_succ]
    · have : mainLoop [e0, e1, e2, t] State.init =
          (aquireFrame t (mainLoop [e0, e1, e2] State.init)).2 := rfl
      rw [this]
      exact (aquireFrame_fail t _ hts).2.2.2

/-- Witness of C2 on the scenario of the specification. -/
theorem C2_failed_cycles_keep_seq_witness :
    seqs (mainLoop [okEnv, okEnv, okEnv, timeoutEnv, okEnv] State.init).trace = [0, 1, 2, 3] ∧
      published (mainLoop [okEnv, okEnv, okEnv, timeoutEnv] State.init).trace =
        published (mainLoop [okEnv, okEnv, okEnv] State.init).trace :=
  C2_failed_cycles_keep_seq.2.2 okEnv okEnv okEnv timeoutEnv okEnv
    (by decide) (by decide) (by decide) (by decide) (by decide)

/-- C3: `aquireFrame` returns true exactly when capture, resize and convert all
succeed; the cycle hands one message to the publisher when it returns true and
none when it returns false. -/
theorem C3_returns_true_iff_published (env : CycleEnv) (s : State) :
    ((aquireFrame env s).1 = true ↔
        (env.captureOk = true ∧ env.resizeOk = true ∧ env.convertOk = true)) ∧
    (aquireFrame env s).2.trace = s.trace ++ cycleCalls env s ∧
    (published (cycleCalls env s)).length = (if (aquireFrame env s).1 then 1 else 0) ∧
    (published (aquireFrame env s).2.trace).length =
      (published s.trace).length + (if (aquireFrame env s).1 then 1 else 0) := by
  refine ⟨?_, aquireFrame_trace env s, ?_, ?_⟩
  · obtain ⟨c, r, v, w, ht, res, mem, now, conv⟩ := env
    cases c <;> cases r <;> cases v <;> simp [aquireFrame, State.log]
  · obtain ⟨c, r, v, w, ht, res, mem, now, conv⟩ := env
    cases c <;> cases r <;> cases v <;>
      simp [cycleCalls, aquireFrame, State.log, published, Event.published?]
  · rw [aquireFrame_trace, published_append, List.length_append]
    congr 1
    obtain ⟨c, r, v, w, ht, res, mem, now, conv⟩ := env
    cases c <;> cases r <;> cases v <;>
      simp [cycleCalls, aquireFrame, State.log, published, Event.published?]


theorem main_final (atoi : String → Int) (atof : String → ℚ) (argv : List String)
    (ps : ParamSource) (setup : SetupEnv) (cycles : List CycleEnv) :
    (main atoi atof argv ps setup cycles).final =
      if setup.testedFailure then State.init else mainLoop cycles State.init := by
  obtain ⟨a, b, c, d⟩ := setup
  cases a <;> cases b <;> cases d <;> simp [main, SetupEnv.testedFailure]

/-- C6: the calls of one cycle are appended to the trace; a `Convert` call is
always preceded, in the same cycle, by a successful `Resize` call made with the
camera's current width and height and `IMAGE_RGBA32F`; when capture fails the
cycle calls neither `Resize` nor `Convert`; when resize fails it does not call
`Convert`. -/
theorem C6_convert_after_resize (env : CycleEnv) (s : State) :
    (aquireFrame env s).2.trace = s.trace ++ cycleCalls env s ∧
    (∀ (pre post : List Event) (ok : Bool),
        cycleCalls env s = pre ++ Event.convert ok :: post →
          Event.resize env.width env.height imageFormat.IMAGE_RGBA32F true ∈ pre) ∧
    (env.captureOk = false →
        ∀ e ∈ cycleCalls env s, e.isResize = false ∧ e.isConvert = false) ∧
    (env.resizeOk = false → ∀ e ∈ cycleCalls env s, e.isConvert = false) := by
  refine ⟨aquireFrame_trace env s, ?_, ?_, ?_⟩
  · intro pre post ok h
    obtain ⟨c, r, v, w, ht, res, mem, now, conv⟩ := env
    cases c <;> cases r <;> cases v <;>
      simp [cycleCalls, aquireFrame, State.log] at h <;>
      rcases pre with _ | ⟨a, _ | ⟨b, _ | ⟨c, _ | ⟨d, pre⟩⟩⟩⟩ <;> simp_all
  · intro hc e he
    obtain ⟨c, r, v, w, ht, res, mem, now, conv⟩ := env
    subst hc
    simp [cycleCalls, aquireFrame, State.log] at he
    subst he
    simp [Event.isResize, Event.isConvert]
  · intro hr e he
    obtain ⟨c, r, v, w, ht, res, mem, now, conv⟩ := env
    subst hr
    cases c
    · simp [cycleCalls, aquireFrame, State.log] at he
      subst he
      simp [Event.isConvert]
    · simp [cycleCalls, aquireFrame, State.log] at he
      rcases he with he | he <;> subst he <;> simp [Event.isConvert]

/-- Witness of C6: in a successful cycle the `Convert` call comes after the
successful `Resize(640, 480, IMAGE_RGBA32F)`. -/
theorem C6_convert_after_resize_witness :
    cycleCalls okEnv State.init =
        [Event.capture 1000 true, Event.resize 640 480 imageFormat.IMAGE_RGBA32F true] ++
          Event.convert true ::
            [Event.publish { header := { seq := 0, stamp := 7, frame_id := "csi://0" },
                             data := [1, 2, 3] }] ∧
      Event.resize 640 480 imageFormat.IMAGE_RGBA32F true ∈
        [Event.capture 1000 true, Event.resize 640 480 imageFormat.IMAGE_RGBA32F true] :=
  ⟨by decide,
   (C6_convert_after_resize okEnv State.init).2.1
     [Event.capture 1000 true, Event.resize 640 480 imageFormat.IMAGE_RGBA32F true]
     [Event.publish { header := { seq := 0, stamp := 7, frame_id := "csi://0" },
                      data := [1, 2, 3] }]
     true (by decide)⟩

theorem flagStep_width (atoi : String → Int) (atof : String → ℚ) (argv : List String)
    (f : Flags) (i : Nat) :
    (flagStep atoi atof argv f i).width =
      if argv[i]? = some "--width" ∧ i + 1 < argv.length
      then atoi (argv.getD (i + 1) "") else f.width := by
  unfold flagStep
  dsimp only
  split_ifs <;> rfl

theorem flagStep_height (atoi : String → Int) (atof : String → ℚ) (argv : List String)
    (f : Flags) (i : Nat) :
    (flagStep atoi atof argv f i).height =
      if argv[i]? = some "--height" ∧ i + 1 < argv.length
      then atoi (argv.getD (i + 1) "") else f.height := by
  unfold flagStep
  dsimp only
  split_ifs <;> rfl

theorem flagStep_framerate (atoi : String → Int) (atof : String → ℚ) (argv : List String)
    (f : Flags) (i : Nat) :
    (flagStep atoi atof argv f i).framerate =
      if argv[i]? = some "--fps" ∧ i + 1 < argv.length
      then atof (argv.getD (i + 1) "") else f.framerate := by
  unfold flagStep
  dsimp only
  split_ifs <;> rfl

theorem foldl_width_none (atoi : String → Int) (atof : String → ℚ) (argv : List String)
    (is : List Nat) (f : Flags)
    (h : ∀ i ∈ is, ¬ (argv[i]? = some "--width" ∧ i + 1 < argv.length)) :
    (is.foldl (flagStep atoi atof argv) f).width = f.width := by
  induction is generalizing f with
  | nil => rfl
  | cons i rest ih =>
    rw [List.foldl_cons, ih _ (fun j hj => h j (List.mem_cons_of_mem _ hj)), flagStep_width,
      if_neg (h i (List.mem_cons_self _ _))]

theorem foldl_height_none (atoi : String → Int) (atof : String → ℚ) (argv : List String)
    (is : List Nat) (f : Flags)
    (h : ∀ i ∈ is, ¬ (argv[i]? = some "--height" ∧ i + 1 < argv.length)) :
    (is.foldl (flagStep atoi atof argv) f).height = f.height := by
  induction is generalizing f with
  | nil => rfl
  | cons i rest ih =>
    rw [List.foldl_cons, ih _ (fun j hj => h j (List.mem_cons_of_mem _ hj)), flagStep_height,
      if_neg (h i (List.mem_cons_self _ _))]

theorem foldl_framerate_none (atoi : String → Int) (atof : String → ℚ) (argv : List String)
    (is : List Nat) (f : Flags)
    (h : ∀ i ∈ is, ¬ (argv[i]? = some "--fps" ∧ i + 1 < argv.length)) :
    (is.foldl (flagStep atoi atof argv) f).framerate = f.framerate := by
  induction is generalizing f with
  | nil => rfl
  | cons i rest ih =>
    rw [List.foldl_cons, ih _ (fun j hj => h j (List.mem_cons_of_mem _ hj)), flagStep_framerate,
      if_neg (h i (List.mem_cons_self _ _))]

theorem foldl_width_last (atoi : String → Int) (atof : String → ℚ) (argv : List String)
    (before after : List Nat) (i : Nat) (f : Flags)
    (hi : argv[i]? = some "--width" ∧ i + 1 < argv.length)
    (h : ∀ j ∈ after, ¬ (argv[j]? = some "--width" ∧ j + 1 < argv.length)) :
    ((before ++ i :: after).foldl (flagStep atoi atof argv) f).width =
      atoi (argv.getD (i + 1) "") := by
  rw [List.foldl_append, List.foldl_cons, foldl_width_none atoi atof argv after _ h,
    flagStep_width, if_pos hi]

theorem foldl_height_last (atoi : String → Int) (atof : String → ℚ) (argv : List String)
    (before after : List Nat) (i : Nat) (f : Flags)
    (hi : argv[i]? = some "--height" ∧ i + 1 < argv.length)
    (h : ∀ j ∈ after, ¬ (argv[j]? = some "--height" ∧ j + 1 < argv.length)) :
    ((before ++ i :: after).foldl (flagStep atoi atof argv) f).height =
      atoi (argv.getD (i + 1) "") := by
  rw [List.foldl_append, List.foldl_cons, foldl_height_none atoi atof argv after _ h,
    flagStep_height, if_pos hi]

theorem foldl_framerate_last (atoi : String → Int) (atof : String → ℚ) (argv : List String)
    (before after : List Nat) (i : Nat) (f : Flags)
    (hi : argv[i]? = some "--fps" ∧ i + 1 < argv.length)
    (h : ∀ j ∈ after, ¬ (argv[j]? = some "--fps" ∧ j + 1 < argv.length)) :
    ((before ++ i :: after).foldl (flagStep atoi atof argv) f).framerate =
      atof (argv.getD (i + 1) "") := by
  rw [List.foldl_append, List.foldl_cons, foldl_framerate_none atoi atof argv after _ h,
    flagStep_framerate, if_pos hi]

/-- Splitting the index range of the flag loop at one of its indices: what
comes after `i` in the loop is larger than `i`. -/
theorem loop_indices_split (n i : Nat) (h1 : 1 ≤ i) (h2 : i + 1 < n) :
    ∃ before after : List Nat,
      List.range' 1 (n - 1) = before ++ i :: after ∧ ∀ j ∈ after, i < j := by
  have hmem : i ∈ List.range' 1 (n - 1) := by
    rw [List.mem_range'_1]; omega
  obtain ⟨before, after, hsplit⟩ := List.append_of_mem hmem
  refine ⟨before, after, hsplit, ?_⟩
  have hp := List.pairwise_lt_range' 1 (n - 1)
  rw [hsplit, List.pairwise_append] at hp
  intro j hj
  exact (List.pairwise_cons.mp hp.2.1).1 j hj

/-- C10: the width left by the flag loop is `atoi` of the argument after the
last `--width` found at an index `i` with `1 <= i` and `i + 1 < argc`, and 640
when there is no such index (so a `--width` in last position is ignored and a
later occurrence overrides an earlier one); the same holds for `--height` with
480, whatever the other flags are. -/
theorem C10_last_flag_wins (atoi : String → Int) (atof : String → ℚ) (argv : List String) :
    (∀ i, 1 ≤ i → i + 1 < argv.length → argv[i]? = some "--width" →
        (∀ j, i < j → j + 1 < argv.length → argv[j]? ≠ some "--width") →
        (parseFlags atoi atof argv).width = atoi (argv.getD (i + 1) "")) ∧
    ((∀ i, 1 ≤ i → i + 1 < argv.length → argv[i]? ≠ some "--width") →
        (parseFlags atoi atof argv).width = 640) ∧
    (∀ i, 1 ≤ i → i + 1 < argv.length → argv[i]? = some "--height" →
        (∀ j, i < j → j + 1 < argv.length → argv[j]? ≠ some "--height") →
        (parseFlags atoi atof argv).height = atoi (argv.getD (i + 1) "")) ∧
    ((∀ i, 1 ≤ i → i + 1 < argv.length → argv[i]? ≠ some "--height") →
        (parseFlags atoi atof argv).height = 480) := by
  refine ⟨?_, ?_, ?_, ?_⟩
  · intro i h1 h2 hi hlast
    obtain ⟨before, after, hsplit, hgt⟩ := loop_indices_split argv.length i h1 h2
    unfold parseFlags
    rw [hsplit]
    exact foldl_width_last atoi atof argv before after i _ ⟨hi, h2⟩
      (fun j hj hc => hlast j (hgt j hj) hc.2 hc.1)
  · intro hnone
    unfold parseFlags
    rw [foldl_width_none]
    · rfl
    · intro i hi hc
      rw [List.mem_range'_1] at hi
      exact hnone i hi.1 hc.2 hc.1
  · intro i h1 h2 hi hlast
    obtain ⟨before, after, hsplit, hgt⟩ := loop_indices_split argv.length i h1 h2
    unfold parseFlags
    rw [hsplit]
    exact foldl_height_last atoi atof argv before after i _ ⟨hi, h2⟩
      (fun j hj hc => hlast j (hgt j hj) hc.2 hc.1)
  · intro hnone
    unfold parseFlags
    rw [foldl_height_none]
    · rfl
    · intro i hi hc
      rw [List.mem_range'_1] at hi
      exact hnone i hi.1 hc.2 hc.1

/-- Witness of C10: of two `--width` flags the later one wins, a trailing
`--width` is ignored, and the `--height` between them does not interfere. -/
theorem C10_last_flag_wins_witness :
    (parseFlags atoiDigits atofDigits
        ["jetbot_camera", "--width", "800", "--height", "600", "--width", "1280", "--width"]).width
      = atoiDigits "1280" :=
  (C10_last_flag_wins atoiDigits atofDigits
      ["jetbot_camera", "--width", "800", "--height", "600", "--width", "1280", "--width"]).1
    5 (by decide) (by decide) (by decide)
    (by
      intro j h1 h2
      have h3 : j + 1 < 8 := h2
      have : j = 6 := by omega
      subst this
      decide)


theorem parseFlags_framerate_default (atoi : String → Int) (atof : String → ℚ)
    (argv : List String) (h : noFlag argv "--fps") :
    (parseFlags atoi atof argv).framerate = 30 := by
  unfold parseFlags
  rw [foldl_framerate_none]
  · rfl
  · intro i hi hc
    rw [List.mem_range'_1] at hi
    exact h i hi.1 hc.2 hc.1

theorem parseFlags_width_default (atoi : String → Int) (atof : String → ℚ)
    (argv : List String) (h : noFlag argv "--width") :
    (parseFlags atoi atof argv).width = 640 := by
  unfold parseFlags
  rw [foldl_width_none]
  · rfl
  · intro i hi hc
    rw [List.mem_range'_1] at hi
    exact h i hi.1 hc.2 hc.1

theorem parseFlags_height_default (atoi : String → Int) (atof : String → ℚ)
    (argv : List String) (h : noFlag argv "--height") :
    (parseFlags atoi atof argv).height = 480 := by
  unfold parseFlags
  rw [foldl_height_none]
  · rfl
  · intro i hi hc
    rw [List.mem_range'_1] at hi
    exact h i hi.1 hc.2 hc.1

theorem parseFlags_width_last (atoi : String → Int) (atof : String → ℚ)
    (argv : List String) (i : Nat) (h1 : 1 ≤ i) (h2 : i + 1 < argv.length)
    (hi : argv[i]? = some "--width")
    (hlast : ∀ j, i < j → j + 1 < argv.length → argv[j]? ≠ some "--width") :
    (parseFlags atoi atof argv).width = atoi (argv.getD (i + 1) "") := by
  obtain ⟨before, after, hsplit, hgt⟩ := loop_indices_split argv.length i h1 h2
  unfold parseFlags
  rw [hsplit]
  exact foldl_width_last atoi atof argv before after i _ ⟨hi, h2⟩
    (fun j hj hc => hlast j (hgt j hj) hc.2 hc.1)

theorem parseFlags_height_last (atoi : String → Int) (atof : String → ℚ)
    (argv : List String) (i : Nat) (h1 : 1 ≤ i) (h2 : i + 1 < argv.length)
    (hi : argv[i]? = some "--height")
    (hlast : ∀ j, i < j → j + 1 < argv.length → argv[j]? ≠ some "--height") :
    (parseFlags atoi atof argv).height = atoi (argv.getD (i + 1) "") := by
  obtain ⟨before, after, hsplit, hgt⟩ := loop_indices_split argv.length i h1 h2
  unfold parseFlags
  rw [hsplit]
  exact foldl_height_last atoi atof argv before after i _ ⟨hi, h2⟩
    (fun j hj hc => hlast j (hgt j hj) hc.2 hc.1)

theorem parseFlags_framerate_last (atoi : String → Int) (atof : String → ℚ)
    (argv : List String) (i : Nat) (h1 : 1 ≤ i) (h2 : i + 1 < argv.length)
    (hi : argv[i]? = some "--fps")
    (hlast : ∀ j, i < j → j + 1 < argv.length → argv[j]? ≠ some "--fps") :
    (parseFlags atoi atof argv).framerate = atof (argv.getD (i + 1) "") := by
  obtain ⟨before, after, hsplit, hgt⟩ := loop_indices_split argv.length i h1 h2
  unfold parseFlags
  rw [hsplit]
  exact foldl_framerate_last atoi atof argv before after i _ ⟨hi, h2⟩
    (fun j hj hc => hlast j (hgt j hj) hc.2 hc.1)

theorem main_opt (atoi : String → Int) (atof : String → ℚ) (argv : List String)
    (ps : ParamSource) (setup : SetupEnv) (cycles : List CycleEnv) :
    (main atoi atof argv ps setup cycles).opt =
      makeOptions (resolveParams ps (parseFlags atoi atof argv)) := by
  obtain ⟨a, b, c, d⟩ := setup
  cases a <;> cases b <;> cases d <;> simp [main]

theorem main_exitCode (atoi : String → Int) (atof : String → ℚ) (argv : List String)
    (ps : ParamSource) (setup : SetupEnv) (cycles : List CycleEnv) :
    (main atoi atof argv ps setup cycles).exitCode = 0 := by
  obtain ⟨a, b, c, d⟩ := setup
  cases a <;> cases b <;> cases d <;> simp [main]

theorem aquireCalls_mainLoop (cycles : List CycleEnv) (s : State) :
    aquireCalls (mainLoop cycles s).trace = aquireCalls s.trace + cycles.length := by
  induction cycles generalizing s with
  | nil => simp [mainLoop_nil]
  | cons env rest ih =>
    rw [mainLoop_cons, ih, aquireFrame_trace]
    obtain ⟨c, r, v, w, ht, res, mem, now, conv⟩ := env
    cases c <;> cases r <;> cases v <;>
      simp [aquireCalls, cycleCalls, aquireFrame, State.log, List.countP_cons,
        Event.isCapture] <;> omega

/-! ## `main`: claims -/

/-- Counterexample to C5 as stated: the creation of the publisher fails, every
other set-up step succeeds and `ros::ok()` holds once; `main` enters the loop,
calls `aquireFrame` and hands a message to the publisher. -/
theorem C5_counterexample :
    ¬ (setupNoPublisher.anyFailure = true →
        (main atoiDigits atofDigits ["jetbot_camera"] ParamSource.empty
            setupNoPublisher [okEnv]).exitCode = 0 ∧
        aquireCalls (main atoiDigits atofDigits ["jetbot_camera"] ParamSource.empty
            setupNoPublisher [okEnv]).final.trace = 0 ∧
        published (main atoiDigits atofDigits ["jetbot_camera"] ParamSource.empty
            setupNoPublisher [okEnv]).final.trace = []) := by
  decide

/-- C5 (amended): when `gstCamera::Create` fails, when the converter pointer is
null, or when `camera->Open()` fails, `main` returns 0 without entering the
loop: `aquireFrame` is never called and no message is published. -/
theorem C5_tested_setup_failure_exits (atoi : String → Int) (atof : String → ℚ)
    (argv : List String) (ps : ParamSource) (setup : SetupEnv) (cycles : List CycleEnv)
    (h : setup.testedFailure = true) :
    (main atoi atof argv ps setup cycles).exitCode = 0 ∧
      (main atoi atof argv ps setup cycles).final = State.init ∧
      aquireCalls (main atoi atof argv ps setup cycles).final.trace = 0 ∧
      published (main atoi atof argv ps setup cycles).final.trace = [] := by
  have hf := main_final atoi atof argv ps setup cycles
  rw [h] at hf
  simp only [if_true] at hf
  refine ⟨main_exitCode atoi atof argv ps setup cycles, hf, ?_, ?_⟩ <;>
    simp [hf, State.init, aquireCalls, published]

/-- Witness of C5 (amended): the stream fails to start while `ros::ok()` would
have held for two cycles. -/
theorem C5_tested_setup_failure_exits_witness :
    setupNoStream.testedFailure = true ∧
      (main atoiDigits atofDigits ["jetbot_camera"] ParamSource.empty
          setupNoStream [okEnv, okEnv]).exitCode = 0 ∧
      (main atoiDigits atofDigits ["jetbot_camera"] ParamSource.empty
          setupNoStream [okEnv, okEnv]).final = State.init ∧
      aquireCalls (main atoiDigits atofDigits ["jetbot_camera"] ParamSource.empty
          setupNoStream [okEnv, okEnv]).final.trace = 0 ∧
      published (main atoiDigits atofDigits ["jetbot_camera"] ParamSource.empty
          setupNoStream [okEnv, okEnv]).final.trace = [] :=
  ⟨by decide,
   C5_tested_setup_failure_exits atoiDigits atofDigits ["jetbot_camera"] ParamSource.empty
     setupNoStream [okEnv, okEnv] (by decide)⟩

/-- C7: for width, height and framerate alike: a value in the parameter source
that differs from the built-in default is the resolved value, whatever the
flags say; with no value in the parameter source the resolved value is the one
the flag loop produced, which is `atoi` (for `--fps`: `atof`) of the argument
after the last occurrence of the flag at an index `i` with `1 <= i` and
`i + 1 < argc`; with no value in the parameter source and no such flag it is
the built-in default (640, 480, 30.0). -/
theorem C7_startup_resolution (atoi : String → Int) (atof : String → ℚ)
    (argv : List String) (ps : ParamSource) :
    ((∀ v, ps.width = some v → v ≠ 640 →
          (resolveParams ps (parseFlags atoi atof argv)).width = v) ∧
      (ps.width = none →
          (resolveParams ps (parseFlags atoi atof argv)).width =
            (parseFlags atoi atof argv).width) ∧
      (ps.width = none →
          ∀ i, 1 ≤ i → i + 1 < argv.length → argv[i]? = some "--width" →
            (∀ j, i < j → j + 1 < argv.length → argv[j]? ≠ some "--width") →
            (resolveParams ps (parseFlags atoi atof argv)).width =
              atoi (argv.getD (i + 1) "")) ∧
      (ps.width = none → noFlag argv "--width" →
          (resolveParams ps (parseFlags atoi atof argv)).width = 640)) ∧
    ((∀ v, ps.height = some v → v ≠ 480 →
          (resolveParams ps (parseFlags atoi atof argv)).height = v) ∧
      (ps.height = none →
          (resolveParams ps (parseFlags atoi atof argv)).height =
            (parseFlags atoi atof argv).height) ∧
      (ps.height = none →
          ∀ i, 1 ≤ i → i + 1 < argv.length → argv[i]? = some "--height" →
            (∀ j, i < j → j + 1 < argv.length → argv[j]? ≠ some "--height") →
            (resolveParams ps (parseFlags atoi atof argv)).height =
              atoi (argv.getD (i + 1) "")) ∧
      (ps.height = none → noFlag argv "--height" →
          (resolveParams ps (parseFlags atoi atof argv)).height = 480)) ∧
    ((∀ v, ps.framerate = some v → v ≠ 30 →
          (resolveParams ps (parseFlags atoi atof argv)).framerate = v) ∧
      (ps.framerate = none →
          (resolveParams ps (parseFlags atoi atof argv)).framerate =
            (parseFlags atoi atof argv).framerate) ∧
      (ps.framerate = none →
          ∀ i, 1 ≤ i → i + 1 < argv.length → argv[i]? = some "--fps" →
            (∀ j, i < j → j + 1 < argv.length → argv[j]? ≠ some "--fps") →
            (resolveParams ps (parseFlags atoi atof argv)).framerate =
              atof (argv.getD (i + 1) "")) ∧
      (ps.framerate = none → noFlag argv "--fps" →
          (resolveParams ps (parseFlags atoi atof argv)).framerate = 30)) := by
  refine ⟨⟨?_, ?_, ?_, ?_⟩, ⟨?_, ?_, ?_, ?_⟩, ⟨?_, ?_, ?_, ?_⟩⟩
  · intro v hv _; simp [resolveParams, param, hv]
  · intro hv; simp [resolveParams, param, hv]
  · intro hv i h1 h2 hi hlast
    simp [resolveParams, param, hv, parseFlags_width_last atoi atof argv i h1 h2 hi hlast]
  · intro hv hn
    simp [resolveParams, param, hv, parseFlags_width_default atoi atof argv hn]
  · intro v hv _; simp [resolveParams, param, hv]
  · intro hv; simp [resolveParams, param, hv]
  · intro hv i h1 h2 hi hlast
    simp [resolveParams, param, hv, parseFlags_height_last atoi atof argv i h1 h2 hi hlast]
  · intro hv hn
    simp [resolveParams, param, hv, parseFlags_height_default atoi atof argv hn]
  · intro v hv _; simp [resolveParams, param, hv]
  · intro hv; simp [resolveParams, param, hv]
  · intro hv i h1 h2 hi hlast
    simp [resolveParams, param, hv, parseFlags_framerate_last atoi atof argv i h1 h2 hi hlast]
  · intro hv hn
    simp [resolveParams, param, hv, parseFlags_framerate_default atoi atof argv hn]

/-- Witness of C7: with width 1024 in the parameter source and `--width 800` on
the command line the resolved width is 1024; with an empty parameter source
and the command line `--width 800 --fps 15` the resolved width is what `atoi`
reads in `800`, the resolved frame rate what `atof` reads in `15`, and the
resolved height, for which there is no flag, is 480. -/
theorem C7_startup_resolution_witness :
    (resolveParams { ParamSource.empty with width := some 1024 }
        (parseFlags atoiDigits atofDigits ["jetbot_camera", "--width", "800"])).width = 1024 ∧
    (resolveParams ParamSource.empty
        (parseFlags atoiDigits atofDigits
          ["jetbot_camera", "--width", "800", "--fps", "15"])).width = atoiDigits "800" ∧
    (resolveParams ParamSource.empty
        (parseFlags atoiDigits atofDigits
          ["jetbot_camera", "--width", "800", "--fps", "15"])).framerate = atofDigits "15" ∧
    (resolveParams ParamSource.empty
        (parseFlags atoiDigits atofDigits
          ["jetbot_camera", "--width", "800", "--fps", "15"])).height = 480 ∧
    atoiDigits "800" = 800 ∧ atofDigits "15" = 15 :=
  ⟨(C7_startup_resolution atoiDigits atofDigits ["jetbot_camera", "--width", "800"]
      { ParamSource.empty with width := some 1024 }).1.1 1024 rfl (by decide),
   (C7_startup_resolution atoiDigits atofDigits
      ["jetbot_camera", "--width", "800", "--fps", "15"] ParamSource.empty).1.2.2.1 rfl
      1 (by decide) (by decide) (by decide)
      (by
        intro j h1 h2
        have h3 : j + 1 < 5 := h2
        have hj : j = 2 ∨ j = 3 := by omega
        rcases hj with hj | hj <;> subst hj <;> decide),
   (C7_startup_resolution atoiDigits atofDigits
      ["jetbot_camera", "--width", "800", "--fps", "15"] ParamSource.empty).2.2.2.2.1 rfl
      3 (by decide) (by decide) (by decide)
      (by
        intro j h1 h2
        have h3 : j + 1 < 5 := h2
        omega),
   (C7_startup_resolution atoiDigits atofDigits
      ["jetbot_camera", "--width", "800", "--fps", "15"] ParamSource.empty).2.1.2.2.2 rfl
      (by
        intro i h1 h2
        have h3 : i + 1 < 5 := h2
        have hi : i = 1 ∨ i = 2 ∨ i = 3 := by omega
        rcases hi with hi | hi | hi <;> subst hi <;> decide),
   by decide, by decide⟩

/-- Counterexample to C8 as stated: the command line says `--width 800` and the
parameter source holds width 640, the built-in default; the camera is created
with width 640, not with the command-line value 800. -/
theorem C8_counterexample :
    (parseFlags atoiDigits atofDigits ["jetbot_camera", "--width", "800"]).width = 800 ∧
    ¬ ((main atoiDigits atofDigits ["jetbot_camera", "--width", "800"]
          { ParamSource.empty with width := some 640 } setupOk []).opt.width =
        (parseFlags atoiDigits atofDigits ["jetbot_camera", "--width", "800"]).width) := by
  decide

/-- C8 (amended): when the parameter source holds a value for width, height or
framerate, that value is the effective one, whatever the command line says and
also when the value equals the built-in default. -/
theorem C8_parameter_value_wins (atoi : String → Int) (atof : String → ℚ)
    (argv : List String) (ps : ParamSource) (setup : SetupEnv) (cycles : List CycleEnv) :
    (∀ v, ps.width = some v → (main atoi atof argv ps setup cycles).opt.width = v) ∧
    (∀ v, ps.height = some v → (main atoi atof argv ps setup cycles).opt.height = v) ∧
    (∀ v, ps.framerate = some v →
        (main atoi atof argv ps setup cycles).opt.frameRate = v) := by
  rw [main_opt]
  refine ⟨?_, ?_, ?_⟩ <;> intro v hv <;> simp [makeOptions, resolveParams, param, hv]

/-- Witness of C8 (amended): `--width 800` on the command line, width 640 in
the parameter source: the camera is created with width 640. -/
theorem C8_parameter_value_wins_witness :
    (main atoiDigits atofDigits ["jetbot_camera", "--width", "800"]
        { ParamSource.empty with width := some 640 } setupOk []).opt.width = 640 :=
  (C8_parameter_value_wins atoiDigits atofDigits ["jetbot_camera", "--width", "800"]
      { ParamSource.empty with width := some 640 } setupOk []).1 640 rfl

/-- C9: whatever the arguments and the parameter source, the options given to
`gstCamera::Create` carry the resolved device, width, height and frame rate,
direction `INPUT` and flip method `FLIP_ROTATE_180`; with no flag on the
command line and an empty parameter source the resolved values are
`csi://0`, 640, 480 and 30.0. -/
theorem C9_camera_options (atoi : String → Int) (atof : String → ℚ)
    (argv : List String) (ps : ParamSource) (setup : SetupEnv) (cycles : List CycleEnv) :
    (main atoi atof argv ps setup cycles).opt.resource =
        (resolveParams ps (parseFlags atoi atof argv)).device ∧
    (main atoi atof argv ps setup cycles).opt.width =
        (resolveParams ps (parseFlags atoi atof argv)).width ∧
    (main atoi atof argv ps setup cycles).opt.height =
        (resolveParams ps (parseFlags atoi atof argv)).height ∧
    (main atoi atof argv ps setup cycles).opt.frameRate =
        (resolveParams ps (parseFlags atoi atof argv)).framerate ∧
    (main atoi atof argv ps setup cycles).opt.ioType = IoType.INPUT ∧
    (main atoi atof argv ps setup cycles).opt.flipMethod = FlipMethod.FLIP_ROTATE_180 ∧
    (noFlag argv "--width" → noFlag argv "--height" → noFlag argv "--fps" →
        resolveParams ParamSource.empty (parseFlags atoi atof argv) =
          { device := "csi://0", width := 640, height := 480, framerate := 30 }) := by
  rw [main_opt]
  refine ⟨rfl, rfl, rfl, rfl, rfl, rfl, ?_⟩
  intro hw hh hf
  simp [resolveParams, param, ParamSource.empty, parseFlags_width_default atoi atof argv hw,
    parseFlags_height_default atoi atof argv hh, parseFlags_framerate_default atoi atof argv hf]

/-- Witness of C9: a command line with the program name only. -/
theorem C9_camera_options_witness :
    resolveParams ParamSource.empty (parseFlags atoiDigits atofDigits ["jetbot_camera"]) =
      { device := "csi://0", width := 640, height := 480, framerate := 30 } :=
  (C9_camera_options atoiDigits atofDigits ["jetbot_camera"] ParamSource.empty setupOk []).2.2.2.2.2.2
    (fun i h1 h2 => by simp at h2)
    (fun i h1 h2 => by simp at h2)
    (fun i h1 h2 => by simp at h2)


end JetbotCamera

